import Mathlib

set_option autoImplicit false

/-!
Shallow embedding of the FinalProject repository: the authentication core
(`app/auth/jwt.py`), the login and calculation endpoints (`app/main.py`)
and the calculation model (`app/models/calculation.py`).

Conventions of the embedding:
* timestamps are integers (seconds, as in JWT numeric dates); a Python
  `timedelta` is an integer number of seconds;
* the two calls to `datetime.now(timezone.utc)` inside one invocation of
  `create_token` are modelled as observing the same timestamp `now`
  (JWT timestamps are whole seconds and the calls are microseconds apart);
* `app/core/config.py`, `app/schemas/token.py`, `app/auth/redis.py` and
  `app/models/user.py` are not among the sources; the pieces of them that
  the code under `src/` uses are modelled from the spec and marked so.
-/

/-- FastAPI `HTTPException` as raised by the code: a status code and a
detail message (the `WWW-Authenticate` header carries no information the
claims distinguish on). -/
structure HTTPError where
  statusCode : Nat
  detail : String
deriving Repr, DecidableEq

/-- Modelled from the spec: the `TokenType` enum of `app/schemas/token.py`
(file not in src); the spec fixes the claim values "access" and "refresh". -/
inductive TokenType where
  | ACCESS
  | REFRESH
deriving Repr, DecidableEq

/-- The `.value` of a `TokenType` member, as written into the "type" claim. -/
def TokenType.value : TokenType → String
  | .ACCESS => "access"
  | .REFRESH => "refresh"

/-- Modelled from the spec: the settings object of `app/core/config.py`
(file not in src): two independent signing secrets and the two configured
token lifetimes (access in minutes, refresh in days). -/
structure Settings where
  JWT_SECRET_KEY : String
  JWT_REFRESH_SECRET_KEY : String
  ACCESS_TOKEN_EXPIRE_MINUTES : Int
  REFRESH_TOKEN_EXPIRE_DAYS : Int
deriving Repr, DecidableEq

/-- The JWT claim set built by `create_token` and returned by
`decode_token`. Fields are optional so that tokens missing a claim are
representable (`payload.get` returning `None` / `"sub" not in payload`). -/
structure Payload where
  sub : Option String
  type : Option String
  exp : Option Int
  iat : Option Int
  jti : Option String
deriving Repr, DecidableEq

/-- A serialized token as `jose.jwt` sees it: either a well-formed signed
token (payload plus the secret it was signed with — tamper evidence means a
payload cannot be altered without re-signing) or an arbitrary malformed
string, which `jose.jwt.decode` rejects with `JWTError`. -/
inductive SerializedToken where
  | signed (payload : Payload) (secret : String)
  | malformed (raw : String)
deriving Repr, DecidableEq

/-- Errors of the `jose` library that `decode_token` catches. -/
inductive JoseError where
  | expiredSignature
  | jwtError
deriving Repr, DecidableEq

/-- Model of `jose.jwt.encode(to_encode, secret, algorithm)`: signing binds
the payload to the secret. The algorithm is fixed by the verifier
(`settings.ALGORITHM`) on both sides, so it is not represented. -/
def jose.encode (payload : Payload) (secret : String) : SerializedToken :=
  .signed payload secret

/-- Model of `jose.jwt.decode(token, secret, algorithms, options)`: a
malformed token or a signature made with a different secret raises
`JWTError`; afterwards, when `verify_exp` is set and the `exp` claim is
present and in the past (`exp < now`, zero leeway), it raises
`ExpiredSignatureError`; otherwise the payload is returned. -/
def jose.decode (token : SerializedToken) (secret : String)
    (verify_exp : Bool) (now : Int) : Except JoseError Payload :=
  match token with
  | .malformed _ => .error .jwtError
  | .signed payload sig =>
    if sig ≠ secret then .error .jwtError
    else
      match payload.exp with
      | some e => if verify_exp ∧ e < now then .error .expiredSignature else .ok payload
      | none => .ok payload

/-- Modelled from the spec: `is_blacklisted` of `app/auth/redis.py` (file
not in src). `RevocationStore.is_revoked(token_id)` is true iff the id has
a live revocation entry; the store is modelled as the list of token ids
currently revoked at the moment of the call. -/
def is_blacklisted (blacklist : List String) (jti : String) : Bool :=
  blacklist.contains jti

/-- Python truthiness of the `Optional[timedelta]` argument of
`create_token`: `None` and `timedelta(0)` are falsy, every other timedelta
is truthy. -/
def timedelta_truthy : Option Int → Bool
  | none => false
  | some d => d != 0

/-- `create_token(user_id, token_type, expires_delta)` from
`app/auth/jwt.py`: computes `expire` from the override when it is truthy,
else from the per-type configured lifetime; builds the claim set with
`sub`, `type`, `exp`, `iat` and a fresh `jti` (the random
`secrets.token_hex(16)` value is passed in as `jti`); signs with the secret
selected by the token type. -/
def create_token (s : Settings) (user_id : String) (token_type : TokenType)
    (expires_delta : Option Int) (now : Int) (jti : String) : SerializedToken :=
  let expire : Int :=
    if timedelta_truthy expires_delta then
      now + expires_delta.getD 0
    else
      if token_type = TokenType.ACCESS then
        now + 60 * s.ACCESS_TOKEN_EXPIRE_MINUTES
      else
        now + 86400 * s.REFRESH_TOKEN_EXPIRE_DAYS
  let to_encode : Payload :=
    { sub := some user_id
      type := some token_type.value
      exp := some expire
      iat := some now
      jti := some jti }
  let secret :=
    if token_type = TokenType.ACCESS then s.JWT_SECRET_KEY
    else s.JWT_REFRESH_SECRET_KEY
  jose.encode to_encode secret

/-- `decode_token(token, token_type, verify_exp)` from `app/auth/jwt.py`:
selects the secret by the expected type, lets `jose.jwt.decode` verify
signature and (optionally) expiry, then checks the `type` claim, the
presence of `sub` and `jti`, and finally the revocation blacklist, raising
the corresponding 401 `HTTPException` at the first failing check. -/
def decode_token (s : Settings) (token : SerializedToken)
    (token_type : TokenType) (verify_exp : Bool) (now : Int)
    (blacklist : List String) : Except HTTPError Payload :=
  match jose.decode token
      (if token_type = TokenType.ACCESS then s.JWT_SECRET_KEY
       else s.JWT_REFRESH_SECRET_KEY) verify_exp now with
  | .error .expiredSignature => .error ⟨401, "Token has expired"⟩
  | .error .jwtError => .error ⟨401, "Could not validate credentials"⟩
  | .ok payload =>
    if payload.type ≠ some token_type.value then
      .error ⟨401, "Invalid token type"⟩
    else
      match payload.sub, payload.jti with
      | some _, some j =>
        if is_blacklisted blacklist j then
          .error ⟨401, "Token has been revoked"⟩
        else
          .ok payload
      | _, _ => .error ⟨401, "Invalid token claims"⟩

/-- A row of the `users` table, restricted to the fields the embedded code
reads (`app/models/user.py` itself is not in src; the fields and their use
follow `get_current_user` and the spec's `AuthenticatedUser`). -/
structure User where
  id : String
  username : String
  hashed_password : String
  is_active : Bool
deriving Repr, DecidableEq

/-- `get_current_user(token, db)` from `app/auth/jwt.py`: decode as an
ACCESS token (propagating its 401s), look the subject up in the users
table, 404 when absent, 400 when inactive, else return the user. The
`payload["sub"]` subscript cannot fail after `decode_token`; were `sub`
absent it would be a `KeyError`, i.e. a 500. -/
def get_current_user (s : Settings) (token : SerializedToken) (now : Int)
    (blacklist : List String) (db : List User) : Except HTTPError User :=
  match decode_token s token TokenType.ACCESS true now blacklist with
  | .error e => .error e
  | .ok payload =>
    match payload.sub with
    | none => .error ⟨500, "KeyError"⟩
    | some user_id =>
      match db.find? (fun u => u.id == user_id) with
      | none => .error ⟨404, "User not found"⟩
      | some user =>
        if user.is_active = true then .ok user
        else .error ⟨400, "Inactive user"⟩

instance {ε α : Type} [DecidableEq ε] [DecidableEq α] :
    DecidableEq (Except ε α) := fun a b =>
  match a, b with
  | .ok x, .ok y =>
    if h : x = y then .isTrue (by rw [h]) else .isFalse (by simp [h])
  | .error x, .error y =>
    if h : x = y then .isTrue (by rw [h]) else .isFalse (by simp [h])
  | .ok _, .error _ => .isFalse (by simp)
  | .error _, .ok _ => .isFalse (by simp)

/-- Model of passlib's bcrypt hash identification: a stored record is
recognized as a bcrypt hash iff it starts with one of the bcrypt idents
accepted by `passlib.hash.bcrypt`. -/
def bcrypt_identify (record : String) : Bool :=
  ["$2a$", "$2b$", "$2y$", "$2x$", "$2$"].any
    (fun p => List.isPrefixOf p.data record.data)

/-- Model of `CryptContext(schemes=["bcrypt"]).verify(secret, hash)` from
passlib (external library): per its documentation it raises
`UnknownHashError` (a `ValueError`) when the stored record cannot be
identified as a hash of a configured scheme, and otherwise returns the
boolean result of the bcrypt comparison. The comparison itself is
abstracted as the parameter `bcrypt_verify`. -/
def pwd_context_verify (bcrypt_verify : String → String → Bool)
    (secret record : String) : Except String Bool :=
  if bcrypt_identify record then .ok (bcrypt_verify secret record)
  else .error "UnknownHashError: hash could not be identified"

/-- `verify_password(plain_password, hashed_password)` from
`app/auth/jwt.py`: a direct delegate to `pwd_context.verify` with no
exception handling of its own. -/
def verify_password (bcrypt_verify : String → String → Bool)
    (plain_password hashed_password : String) : Except String Bool :=
  pwd_context_verify bcrypt_verify plain_password hashed_password

/-- The token pair a successful authentication returns (the fields of the
`auth_result` dict that the claims distinguish on). -/
structure AuthResult where
  user : User
  access_token : SerializedToken
  refresh_token : SerializedToken
deriving Repr, DecidableEq

/-- Modelled from the spec: `User.authenticate(db, username, password)`
from `app/models/user.py` (file not in src). Per the spec: look the user up
by username and verify the password via the hasher; both an unknown
username and a failed password verification yield the same `None`
(a single `InvalidCredentialsError` at the boundary); on success the user
and a fresh access and refresh token pair are returned. -/
def User.authenticate (bcrypt_verify : String → String → Bool) (s : Settings)
    (db : List User) (username password : String) (now : Int)
    (jtiA jtiR : String) : Option AuthResult :=
  match db.find? (fun u => u.username == username) with
  | none => none
  | some u =>
    if bcrypt_verify password u.hashed_password then
      some ⟨u, create_token s u.id .ACCESS none now jtiA,
               create_token s u.id .REFRESH none now jtiR⟩
    else none

/-- `POST /auth/login` (`login_json` in `app/main.py`): when
`User.authenticate` returns `None` it raises the single
`HTTPException(401, "Invalid username or password")`; otherwise it builds
the token response from the authentication result. -/
def login_json (bcrypt_verify : String → String → Bool) (s : Settings)
    (db : List User) (username password : String) (now : Int)
    (jtiA jtiR : String) : Except HTTPError AuthResult :=
  match User.authenticate bcrypt_verify s db username password now jtiA jtiR with
  | none => .error ⟨401, "Invalid username or password"⟩
  | some auth_result => .ok auth_result

/-- `POST /auth/token` (`login_form` in `app/main.py`): same
`User.authenticate` call and the identical 401 on `None`; on success only
the access token is returned. -/
def login_form (bcrypt_verify : String → String → Bool) (s : Settings)
    (db : List User) (username password : String) (now : Int)
    (jtiA jtiR : String) : Except HTTPError SerializedToken :=
  match User.authenticate bcrypt_verify s db username password now jtiA jtiR with
  | none => .error ⟨401, "Invalid username or password"⟩
  | some auth_result => .ok auth_result.access_token

/-- Python exceptions escaping the calculation strategies: the explicitly
raised `ValueError`s, the `ZeroDivisionError` of `%` on a zero divisor, and
the `NotImplementedError` of the abstract base. -/
inductive CalcError where
  | valueError (msg : String)
  | zeroDivisionError
  | notImplementedError
deriving Repr, DecidableEq

/-- The calculation subclasses `Calculation.create` dispatches to. -/
inductive CalculationClass where
  | addition
  | subtraction
  | multiplication
  | division
  | modulus
deriving Repr, DecidableEq

/-- Model of Python `str.lower()` restricted to the ASCII dictionary keys
`AbstractCalculation.create` compares against: per-character lowering. -/
def py_lower (t : String) : String :=
  ⟨t.data.map Char.toLower⟩

/-- `AbstractCalculation.create(calculation_type, user_id, inputs)` from
`app/models/calculation.py`: a dictionary lookup on the lower-cased type
name; an unknown name raises `ValueError("Unsupported calculation type: ...")`,
here `none`; the Python `str.lower()` call is modelled by `py_lower`. -/
def calculation_create (calculation_type : String) : Option CalculationClass :=
  if py_lower calculation_type = "addition" then some .addition
  else if py_lower calculation_type = "subtraction" then some .subtraction
  else if py_lower calculation_type = "multiplication" then some .multiplication
  else if py_lower calculation_type = "division" then some .division
  else if py_lower calculation_type = "modulus" then some .modulus
  else none

/-- Python `%` on numbers (sign follows the divisor):
`a % b = a - b * floor(a / b)`; defined for a nonzero divisor, which every
call below guards. Inputs are modelled as rationals. -/
def pyMod (a b : ℚ) : ℚ :=
  a - b * ⌊a / b⌋

/-- The loop of `Division.get_result`: `result /= value` over the tail,
raising `ValueError("Cannot divide by zero.")` on a zero divisor. -/
def division_loop (result : ℚ) : List ℚ → Except CalcError ℚ
  | [] => .ok result
  | value :: rest =>
    if value = 0 then .error (.valueError "Cannot divide by zero.")
    else division_loop (result / value) rest

/-- The loop of `Modulus.get_result`: `result %= value` over the tail with
no zero guard; Python raises `ZeroDivisionError` when `value` is zero. -/
def modulus_loop (result : ℚ) : List ℚ → Except CalcError ℚ
  | [] => .ok result
  | value :: rest =>
    if value = 0 then .error .zeroDivisionError
    else modulus_loop (pyMod result value) rest

/-- `Addition.get_result` from `app/models/calculation.py` (the
`isinstance(list)` guard is discharged by the embedding's types). -/
def Addition.get_result (inputs : List ℚ) : Except CalcError ℚ :=
  if inputs.length < 2 then
    .error (.valueError "Inputs must be a list with at least two numbers.")
  else .ok inputs.sum

/-- `Subtraction.get_result`: `result = inputs[0]` then `result -= value`
over the tail. -/
def Subtraction.get_result (inputs : List ℚ) : Except CalcError ℚ :=
  if inputs.length < 2 then
    .error (.valueError "Inputs must be a list with at least two numbers.")
  else
    match inputs with
    | [] => .error (.valueError "Inputs must be a list with at least two numbers.")
    | x :: rest => .ok (rest.foldl (fun a b => a - b) x)

/-- `Multiplication.get_result`: `result = 1` then `result *= value` over
the whole list. -/
def Multiplication.get_result (inputs : List ℚ) : Except CalcError ℚ :=
  if inputs.length < 2 then
    .error (.valueError "Inputs must be a list with at least two numbers.")
  else .ok (inputs.foldl (fun a b => a * b) 1)

/-- `Division.get_result` from `app/models/calculation.py`. -/
def Division.get_result (inputs : List ℚ) : Except CalcError ℚ :=
  if inputs.length < 2 then
    .error (.valueError "Inputs must be a list with at least two numbers.")
  else
    match inputs with
    | [] => .error (.valueError "Inputs must be a list with at least two numbers.")
    | x :: rest => division_loop x rest

/-- `Modulus.get_result` from `app/models/calculation.py`: identical
shape to `Division.get_result` but with `%=` and no zero-divisor guard. -/
def Modulus.get_result (inputs : List ℚ) : Except CalcError ℚ :=
  if inputs.length < 2 then
    .error (.valueError "Inputs must be a list with at least two numbers.")
  else
    match inputs with
    | [] => .error (.valueError "Inputs must be a list with at least two numbers.")
    | x :: rest => modulus_loop x rest

/-- A row of the `calculations` table, restricted to the fields the
embedded endpoints read or write. -/
structure Calc where
  id : String
  user_id : String
  type : String
  inputs : List ℚ
  result : Option ℚ
  updated_at : Int
deriving Repr, DecidableEq

/-- Polymorphic dispatch of `get_result` on the `type` discriminator
column, as SQLAlchemy's single-table inheritance performs it; an identity
outside the five subclasses hits the abstract `NotImplementedError`. -/
def Calculation.get_result (c : Calc) : Except CalcError ℚ :=
  if c.type = "addition" then Addition.get_result c.inputs
  else if c.type = "subtraction" then Subtraction.get_result c.inputs
  else if c.type = "multiplication" then Multiplication.get_result c.inputs
  else if c.type = "division" then Division.get_result c.inputs
  else if c.type = "modulus" then Modulus.get_result c.inputs
  else .error .notImplementedError

/-- The shared ownership filter of the three single-calculation endpoints:
`Calculation.id == calc_uuid AND Calculation.user_id == current_user.id`. -/
def owned_by (cid uid : String) (c : Calc) : Bool :=
  c.id == cid && c.user_id == uid

/-- Replace the first element satisfying `p` (the ORM mutates the single
row `first()` returned; ids are primary keys). -/
def replace_first (p : Calc → Bool) (c2 : Calc) : List Calc → List Calc
  | [] => []
  | c :: cs => if p c then c2 :: cs else c :: replace_first p c2 cs

/-- Remove the first element satisfying `p` (`db.delete` on the row
`first()` returned). -/
def erase_first (p : Calc → Bool) : List Calc → List Calc
  | [] => []
  | c :: cs => if p c then cs else c :: erase_first p cs

/-- An error escaping an endpoint: either a raised `HTTPException` or an
unhandled Python exception (a 500 at the boundary). -/
inductive EndpointError where
  | http (e : HTTPError)
  | unhandled (e : CalcError)
deriving Repr, DecidableEq

/-- `GET /calculations/{calc_id}` (`get_calculation` in `app/main.py`).
`calc_uuid` is the result of `UUID(calc_id)`, `none` standing for the
`ValueError` branch (400). The query filters on id AND owner; an empty
result is the uniform 404. -/
def get_calculation (calc_uuid : Option String) (current_user_id : String)
    (db : List Calc) : Except HTTPError Calc :=
  match calc_uuid with
  | none => .error ⟨400, "Invalid calculation id format."⟩
  | some cid =>
    match db.find? (owned_by cid current_user_id) with
    | none => .error ⟨404, "Calculation not found."⟩
    | some c => .ok c

/-- `PUT /calculations/{calc_id}` (`update_calculation` in `app/main.py`):
same parse and owner-filtered lookup; when `inputs` is supplied the row's
inputs are replaced and `get_result` recomputed (an exception there escapes
unhandled, before any commit); `updated_at` is refreshed. The returned list
is the table after the transaction: unchanged whenever an error is
returned. -/
def update_calculation (calc_uuid : Option String)
    (upd_inputs : Option (List ℚ)) (current_user_id : String)
    (db : List Calc) (now : Int) : Except EndpointError Calc × List Calc :=
  match calc_uuid with
  | none => (.error (.http ⟨400, "Invalid calculation id format."⟩), db)
  | some cid =>
    match db.find? (owned_by cid current_user_id) with
    | none => (.error (.http ⟨404, "Calculation not found."⟩), db)
    | some c =>
      match upd_inputs with
      | none =>
        let c2 := { c with updated_at := now }
        (.ok c2, replace_first (owned_by cid current_user_id) c2 db)
      | some new_inputs =>
        match Calculation.get_result { c with inputs := new_inputs } with
        | .error e => (.error (.unhandled e), db)
        | .ok r =>
          let c2 := { c with inputs := new_inputs, result := some r,
                             updated_at := now }
          (.ok c2, replace_first (owned_by cid current_user_id) c2 db)

/-- `DELETE /calculations/{calc_id}` (`delete_calculation` in
`app/main.py`): same parse and owner-filtered lookup; the found row is
deleted. The returned list is the table after the transaction. -/
def delete_calculation (calc_uuid : Option String) (current_user_id : String)
    (db : List Calc) : Except EndpointError Unit × List Calc :=
  match calc_uuid with
  | none => (.error (.http ⟨400, "Invalid calculation id format."⟩), db)
  | some cid =>
    match db.find? (owned_by cid current_user_id) with
    | none => (.error (.http ⟨404, "Calculation not found."⟩), db)
    | some _ => (.ok (), erase_first (owned_by cid current_user_id) db)

/-! Helper lemmas about `decode_token` and the revocation blacklist. -/


theorem decode_token_error_bl (s : Settings) (tok : SerializedToken)
    (tt : TokenType) (ve : Bool) (now : Int) (bl : List String) (e : HTTPError)
    (h : decode_token s tok tt ve now [] = .error e) :
    decode_token s tok tt ve now bl = .error e := by
  unfold decode_token at h ⊢
  cases hd : jose.decode tok
      (if tt = TokenType.ACCESS then s.JWT_SECRET_KEY
       else s.JWT_REFRESH_SECRET_KEY) ve now with
  | error je => rw [hd] at h; cases je <;> exact h
  | ok payload =>
    rw [hd] at h
    dsimp only at h ⊢
    by_cases ht : payload.type ≠ some tt.value
    · rw [if_pos ht] at h ⊢; exact h
    · rw [if_neg ht] at h ⊢
      cases hsub : payload.sub with
      | none =>
        rw [hsub] at h
        cases hjti : payload.jti <;> rw [hjti] at h <;> exact h
      | some u =>
        rw [hsub] at h
        cases hjti : payload.jti with
        | none => rw [hjti] at h; exact h
        | some j =>
          rw [hjti] at h
          simp [is_blacklisted] at h

theorem decode_token_ok_bl (s : Settings) (tok : SerializedToken)
    (tt : TokenType) (ve : Bool) (now : Int) (bl : List String) (p : Payload)
    (h : decode_token s tok tt ve now bl = .ok p) :
    decode_token s tok tt ve now [] = .ok p ∧
      ∃ j, p.jti = some j ∧ bl.contains j = false := by
  unfold decode_token at h ⊢
  cases hd : jose.decode tok
      (if tt = TokenType.ACCESS then s.JWT_SECRET_KEY
       else s.JWT_REFRESH_SECRET_KEY) ve now with
  | error je => rw [hd] at h; cases je <;> simp at h
  | ok payload =>
    rw [hd] at h
    dsimp only at h ⊢
    by_cases ht : payload.type ≠ some tt.value
    · rw [if_pos ht] at h; simp at h
    · rw [if_neg ht] at h ⊢
      cases hsub : payload.sub with
      | none =>
        rw [hsub] at h
        cases hjti : payload.jti <;> rw [hjti] at h <;> simp at h
      | some u =>
        rw [hsub] at h
        cases hjti : payload.jti with
        | none => rw [hjti] at h; simp at h
        | some j =>
          rw [hjti] at h
          dsimp only at h ⊢
          by_cases hb : is_blacklisted bl j = true
          · rw [if_pos hb] at h; simp at h
          · rw [if_neg hb] at h
            have hp : payload = p := by simpa using h
            subst hp
            refine ⟨by simp [is_blacklisted], j, hjti, ?_⟩
            simpa [is_blacklisted] using hb

theorem decode_token_ok_fresh (s : Settings) (tok : SerializedToken)
    (tt : TokenType) (ve : Bool) (now : Int) (bl : List String) (p : Payload)
    (j : String) (h : decode_token s tok tt ve now [] = .ok p)
    (hj : p.jti = some j) (hf : bl.contains j = false) :
    decode_token s tok tt ve now bl = .ok p := by
  unfold decode_token at h ⊢
  cases hd : jose.decode tok
      (if tt = TokenType.ACCESS then s.JWT_SECRET_KEY
       else s.JWT_REFRESH_SECRET_KEY) ve now with
  | error je => rw [hd] at h; cases je <;> simp at h
  | ok payload =>
    rw [hd] at h
    dsimp only at h ⊢
    by_cases ht : payload.type ≠ some tt.value
    · rw [if_pos ht] at h; simp at h
    · rw [if_neg ht] at h ⊢
      cases hsub : payload.sub with
      | none =>
        rw [hsub] at h
        cases hjti : payload.jti <;> rw [hjti] at h <;> simp at h
      | some u =>
        rw [hsub] at h
        cases hjti : payload.jti with
        | none => rw [hjti] at h; simp at h
        | some j2 =>
          rw [hjti] at h
          dsimp only at h ⊢
          simp [is_blacklisted] at h
          have hp : payload = p := h
          subst hp
          rw [hjti] at hj
          have hjj : j2 = j := by simpa using hj
          subst hjj
          simp only [is_blacklisted, hf]
          simp

theorem decode_token_revoked (s : Settings) (tok : SerializedToken)
    (tt : TokenType) (ve : Bool) (now : Int) (bl : List String) (p : Payload)
    (j : String) (h : decode_token s tok tt ve now [] = .ok p)
    (hj : p.jti = some j) (hr : bl.contains j = true) :
    decode_token s tok tt ve now bl = .error ⟨401, "Token has been revoked"⟩ := by
  unfold decode_token at h ⊢
  cases hd : jose.decode tok
      (if tt = TokenType.ACCESS then s.JWT_SECRET_KEY
       else s.JWT_REFRESH_SECRET_KEY) ve now with
  | error je => rw [hd] at h; cases je <;> simp at h
  | ok payload =>
    rw [hd] at h
    dsimp only at h ⊢
    by_cases ht : payload.type ≠ some tt.value
    · rw [if_pos ht] at h; simp at h
    · rw [if_neg ht] at h ⊢
      cases hsub : payload.sub with
      | none =>
        rw [hsub] at h
        cases hjti : payload.jti <;> rw [hjti] at h <;> simp at h
      | some u =>
        rw [hsub] at h
        cases hjti : payload.jti with
        | none => rw [hjti] at h; simp at h
        | some j2 =>
          rw [hjti] at h
          dsimp only at h ⊢
          simp [is_blacklisted] at h
          have hp : payload = p := h
          subst hp
          rw [hjti] at hj
          have hjj : j2 = j := by simpa using hj
          subst hjj
          simp only [is_blacklisted, hr]
          simp

theorem decode_token_ok_claims (s : Settings) (tok : SerializedToken)
    (tt : TokenType) (ve : Bool) (now : Int) (bl : List String) (p : Payload)
    (h : decode_token s tok tt ve now bl = .ok p) :
    (∃ u, p.sub = some u) ∧ (∃ j, p.jti = some j) ∧ p.type = some tt.value := by
  unfold decode_token at h
  cases hd : jose.decode tok
      (if tt = TokenType.ACCESS then s.JWT_SECRET_KEY
       else s.JWT_REFRESH_SECRET_KEY) ve now with
  | error je => rw [hd] at h; cases je <;> simp at h
  | ok payload =>
    rw [hd] at h
    dsimp only at h
    by_cases ht : payload.type ≠ some tt.value
    · rw [if_pos ht] at h; simp at h
    · rw [if_neg ht] at h
      cases hsub : payload.sub with
      | none =>
        rw [hsub] at h
        cases hjti : payload.jti <;> rw [hjti] at h <;> simp at h
      | some u =>
        rw [hsub] at h
        cases hjti : payload.jti with
        | none => rw [hjti] at h; simp at h
        | some j =>
          rw [hjti] at h
          dsimp only at h
          by_cases hb : is_blacklisted bl j = true
          · rw [if_pos hb] at h; simp at h
          · rw [if_neg hb] at h
            have hp : payload = p := by simpa using h
            subst hp
            refine ⟨⟨u, hsub⟩, ⟨j, hjti⟩, ?_⟩
            simpa using ht

/-- C1: resolution of an ACCESS bearer token by `get_current_user` succeeds
iff the token decodes structurally, its `jti` is not revoked, a user whose
id equals the `sub` claim exists, and that user is active; and each failure
is the corresponding typed error — a revoked `jti` gives the 401 revocation
error (distinct from every invalid-token error), an absent subject the 404,
an inactive user the 400. -/
theorem C1_token_resolution (s : Settings) (tok : SerializedToken) (now : Int)
    (bl : List String) (db : List User) :
    ((∃ u, get_current_user s tok now bl db = .ok u) ↔
      (∃ p sub j u, decode_token s tok .ACCESS true now [] = .ok p ∧
        p.sub = some sub ∧ p.jti = some j ∧ bl.contains j = false ∧
        db.find? (fun v => v.id == sub) = some u ∧ u.is_active = true)) ∧
    (∀ p j, decode_token s tok .ACCESS true now [] = .ok p →
      p.jti = some j → bl.contains j = true →
      get_current_user s tok now bl db = .error ⟨401, "Token has been revoked"⟩) ∧
    (∀ p sub, decode_token s tok .ACCESS true now bl = .ok p →
      p.sub = some sub → db.find? (fun v => v.id == sub) = none →
      get_current_user s tok now bl db = .error ⟨404, "User not found"⟩) ∧
    (∀ p sub u, decode_token s tok .ACCESS true now bl = .ok p →
      p.sub = some sub → db.find? (fun v => v.id == sub) = some u →
      u.is_active = false →
      get_current_user s tok now bl db = .error ⟨400, "Inactive user"⟩) ∧
    ((⟨401, "Token has been revoked"⟩ : HTTPError) ≠
        ⟨401, "Could not validate credentials"⟩ ∧
      (⟨401, "Token has been revoked"⟩ : HTTPError) ≠ ⟨401, "Invalid token type"⟩ ∧
      (⟨401, "Token has been revoked"⟩ : HTTPError) ≠
        ⟨401, "Invalid token claims"⟩) := by
  refine ⟨⟨?_, ?_⟩, ?_, ?_, ?_, by decide, by decide, by decide⟩
  · rintro ⟨u, hu⟩
    unfold get_current_user at hu
    cases hdec : decode_token s tok .ACCESS true now bl with
    | error e => rw [hdec] at hu; simp at hu
    | ok p =>
      rw [hdec] at hu
      dsimp only at hu
      cases hsub : p.sub with
      | none => rw [hsub] at hu; simp at hu
      | some sub =>
        rw [hsub] at hu
        dsimp only at hu
        cases hfind : db.find? (fun v => v.id == sub) with
        | none => rw [hfind] at hu; simp at hu
        | some user =>
          rw [hfind] at hu
          dsimp only at hu
          by_cases hact : user.is_active = true
          · rw [if_pos hact] at hu
            have huser : user = u := by simpa using hu
            subst huser
            obtain ⟨h0, j, hj, hfresh⟩ := decode_token_ok_bl s tok _ _ _ _ _ hdec
            exact ⟨p, sub, j, user, h0, hsub, hj, hfresh, hfind, hact⟩
          · rw [if_neg hact] at hu; simp at hu
  · rintro ⟨p, sub, j, u, hdec0, hsub, hj, hfresh, hfind, hact⟩
    have hdec := decode_token_ok_fresh s tok _ _ _ bl _ _ hdec0 hj hfresh
    refine ⟨u, ?_⟩
    unfold get_current_user
    rw [hdec]
    dsimp only
    rw [hsub]
    dsimp only
    rw [hfind]
    dsimp only
    simp [hact]
  · intro p j hdec0 hj hb
    have hdec := decode_token_revoked s tok _ _ _ bl _ _ hdec0 hj hb
    unfold get_current_user
    rw [hdec]
  · intro p sub hdec hsub hfind
    unfold get_current_user
    rw [hdec]
    dsimp only
    rw [hsub]
    dsimp only
    rw [hfind]
  · intro p sub u hdec hsub hfind hact
    unfold get_current_user
    rw [hdec]
    dsimp only
    rw [hsub]
    dsimp only
    rw [hfind]
    dsimp only
    simp [hact]

/-- Witness for C1: a concrete revoked access token resolves to the 401
revocation error. -/
theorem C1_token_resolution_witness :
    get_current_user ⟨"sA", "sR", 15, 30⟩
      (create_token ⟨"sA", "sR", 15, 30⟩ "u1" .ACCESS none 0 "j1")
      0 ["j1"] [⟨"u1", "alice", "h", true⟩] =
      .error ⟨401, "Token has been revoked"⟩ :=
  (C1_token_resolution ⟨"sA", "sR", 15, 30⟩
      (create_token ⟨"sA", "sR", 15, 30⟩ "u1" .ACCESS none 0 "j1")
      0 ["j1"] [⟨"u1", "alice", "h", true⟩]).2.1
    ⟨some "u1", some "access", some 900, some 0, some "j1"⟩ "j1"
    (by decide) (by decide) (by decide)

/-- C2: decoding a freshly issued token of either type with the same
expected type succeeds, and the claims carry the subject, the issued type,
and an `exp` minus `iat` equal to the configured lifetime of that type
(no `expires_delta` override given). -/
theorem C2_issue_decode_round_trip (s : Settings) (uid : String)
    (tt : TokenType) (now : Int) (jti : String) (bl : List String)
    (hA : 0 < s.ACCESS_TOKEN_EXPIRE_MINUTES)
    (hR : 0 < s.REFRESH_TOKEN_EXPIRE_DAYS)
    (hfresh : bl.contains jti = false) :
    ∃ p, decode_token s (create_token s uid tt none now jti) tt true now bl =
        .ok p ∧
      p.sub = some uid ∧ p.type = some tt.value ∧
      ∃ e i, p.exp = some e ∧ p.iat = some i ∧
        e - i = (match tt with
          | .ACCESS => 60 * s.ACCESS_TOKEN_EXPIRE_MINUTES
          | .REFRESH => 86400 * s.REFRESH_TOKEN_EXPIRE_DAYS) := by
  cases tt with
  | ACCESS =>
    have hexp : ¬ now + 60 * s.ACCESS_TOKEN_EXPIRE_MINUTES < now := by omega
    refine ⟨⟨some uid, some "access",
        some (now + 60 * s.ACCESS_TOKEN_EXPIRE_MINUTES), some now, some jti⟩,
      ?_, rfl, rfl,
      now + 60 * s.ACCESS_TOKEN_EXPIRE_MINUTES, now, rfl, rfl, by ring⟩
    have hmem : jti ∉ bl := by simpa using hfresh
    unfold create_token decode_token jose.encode jose.decode
    simp [timedelta_truthy, TokenType.value, is_blacklisted, hmem, hexp]
  | REFRESH =>
    have hexp : ¬ now + 86400 * s.REFRESH_TOKEN_EXPIRE_DAYS < now := by omega
    refine ⟨⟨some uid, some "refresh",
        some (now + 86400 * s.REFRESH_TOKEN_EXPIRE_DAYS), some now, some jti⟩,
      ?_, rfl, rfl,
      now + 86400 * s.REFRESH_TOKEN_EXPIRE_DAYS, now, rfl, rfl, by ring⟩
    have hmem : jti ∉ bl := by simpa using hfresh
    unfold create_token decode_token jose.encode jose.decode
    simp [timedelta_truthy, TokenType.value, is_blacklisted, hmem, hexp]

/-- Witness for C2: a concrete fresh access token round-trips with
`exp - iat` equal to 60 times the configured minutes. -/
theorem C2_issue_decode_round_trip_witness :
    ∃ p, decode_token ⟨"sA", "sR", 15, 30⟩
        (create_token ⟨"sA", "sR", 15, 30⟩ "u1" .ACCESS none 0 "j1")
        .ACCESS true 0 [] = .ok p ∧
      p.sub = some "u1" ∧ p.type = some TokenType.ACCESS.value ∧
      ∃ e i, p.exp = some e ∧ p.iat = some i ∧
        e - i = (match TokenType.ACCESS with
          | .ACCESS => 60 * (15 : Int)
          | .REFRESH => 86400 * 30) :=
  C2_issue_decode_round_trip ⟨"sA", "sR", 15, 30⟩ "u1" .ACCESS 0 "j1" []
    (by decide) (by decide) (by decide)

/-- C3: a token issued as one type and decoded as the other is rejected
with a 401 that is one of the two invalid-token errors; in particular when
the two secrets coincide (so the signature verifies under the other type's
secret) the rejection comes from the explicit type-claim check. -/
theorem C3_cross_type_rejected (s : Settings) (uid : String) (now : Int)
    (jti : String) (bl : List String)
    (hA : 0 < s.ACCESS_TOKEN_EXPIRE_MINUTES)
    (hR : 0 < s.REFRESH_TOKEN_EXPIRE_DAYS) :
    (∃ d, decode_token s (create_token s uid .ACCESS none now jti)
        .REFRESH true now bl = .error ⟨401, d⟩ ∧
      (d = "Could not validate credentials" ∨ d = "Invalid token type")) ∧
    (∃ d, decode_token s (create_token s uid .REFRESH none now jti)
        .ACCESS true now bl = .error ⟨401, d⟩ ∧
      (d = "Could not validate credentials" ∨ d = "Invalid token type")) ∧
    (s.JWT_SECRET_KEY = s.JWT_REFRESH_SECRET_KEY →
      decode_token s (create_token s uid .ACCESS none now jti)
          .REFRESH true now bl = .error ⟨401, "Invalid token type"⟩ ∧
      decode_token s (create_token s uid .REFRESH none now jti)
          .ACCESS true now bl = .error ⟨401, "Invalid token type"⟩) := by
  have hexpA : ¬ now + 60 * s.ACCESS_TOKEN_EXPIRE_MINUTES < now := by omega
  have hexpR : ¬ now + 86400 * s.REFRESH_TOKEN_EXPIRE_DAYS < now := by omega
  by_cases hsec : s.JWT_SECRET_KEY = s.JWT_REFRESH_SECRET_KEY
  · refine ⟨⟨"Invalid token type", ?_, Or.inr rfl⟩,
      ⟨"Invalid token type", ?_, Or.inr rfl⟩, fun _ => ⟨?_, ?_⟩⟩ <;>
    · unfold create_token decode_token jose.encode jose.decode
      simp [timedelta_truthy, TokenType.value, hsec, hexpA, hexpR]
  · have hsec2 : ¬ s.JWT_REFRESH_SECRET_KEY = s.JWT_SECRET_KEY :=
      fun h => hsec h.symm
    refine ⟨⟨"Could not validate credentials", ?_, Or.inl rfl⟩,
      ⟨"Could not validate credentials", ?_, Or.inl rfl⟩,
      fun hc => absurd hc hsec⟩ <;>
    · unfold create_token decode_token jose.encode jose.decode
      simp [timedelta_truthy, TokenType.value, hsec, hsec2]

/-- Witness for C3 at concrete inputs (distinct secrets, and the theorem
also applied at equal secrets through its conditional conjunct). -/
theorem C3_cross_type_rejected_witness :
    (∃ d, decode_token ⟨"sK", "sK", 15, 30⟩
        (create_token ⟨"sK", "sK", 15, 30⟩ "u1" .ACCESS none 0 "j1")
        .REFRESH true 0 [] = .error ⟨401, d⟩ ∧
      (d = "Could not validate credentials" ∨ d = "Invalid token type")) ∧
    decode_token ⟨"sK", "sK", 15, 30⟩
        (create_token ⟨"sK", "sK", 15, 30⟩ "u1" .ACCESS none 0 "j1")
        .REFRESH true 0 [] = .error ⟨401, "Invalid token type"⟩ :=
  ⟨(C3_cross_type_rejected ⟨"sK", "sK", 15, 30⟩ "u1" 0 "j1" []
      (by decide) (by decide)).1,
    ((C3_cross_type_rejected ⟨"sK", "sK", 15, 30⟩ "u1" 0 "j1" []
      (by decide) (by decide)).2.2 rfl).1⟩

/-- Counterexample for C4: on a record that is not an identifiable bcrypt
hash, `verify_password` propagates passlib's `UnknownHashError` instead of
returning false. -/
theorem C4_verify_password_counterexample :
    verify_password (fun _ _ => false) "password" "not-a-hash" =
      .error "UnknownHashError: hash could not be identified" := by
  decide

/-- C4 as amended: `verify_password` returns the boolean bcrypt comparison
for every record passlib identifies as a bcrypt hash, and raises
`UnknownHashError` (a `ValueError`) — it does not return false — on every
record it cannot identify. -/
theorem C4_verify_password_amended (bv : String → String → Bool)
    (p r : String) :
    (bcrypt_identify r = true → verify_password bv p r = .ok (bv p r)) ∧
    (bcrypt_identify r = false →
      verify_password bv p r =
        .error "UnknownHashError: hash could not be identified") := by
  constructor <;> intro h <;>
    simp [verify_password, pwd_context_verify, h]

/-- Witness for C4's amended statement at a well-formed and a malformed
record. -/
theorem C4_verify_password_amended_witness :
    verify_password (fun _ _ => true) "pw" "$2b$12$abc" = .ok true ∧
    verify_password (fun _ _ => true) "pw" "plain" =
      .error "UnknownHashError: hash could not be identified" :=
  ⟨(C4_verify_password_amended (fun _ _ => true) "pw" "$2b$12$abc").1
      (by decide),
    (C4_verify_password_amended (fun _ _ => true) "pw" "plain").2 (by decide)⟩

/-- Counterexample for C5: the result of `decode_token` on one and the same
token differs between an empty revocation store and one holding the
token's `jti` — decode is not independent of the store. -/
theorem C5_decode_revocation_counterexample :
    decode_token ⟨"sA", "sR", 15, 30⟩
        (create_token ⟨"sA", "sR", 15, 30⟩ "u1" .ACCESS none 0 "j1")
        .ACCESS true 0 [] ≠
      decode_token ⟨"sA", "sR", 15, 30⟩
        (create_token ⟨"sA", "sR", 15, 30⟩ "u1" .ACCESS none 0 "j1")
        .ACCESS true 0 ["j1"] := by
  decide

/-- C5 as amended: `decode_token` itself performs the revocation check, so
its result depends on the store exactly through membership of the token's
`jti`: a token that decodes against the empty store decodes against `bl`
iff its `jti` is not in `bl`, failing with the 401 revocation error when it
is; error results do not depend on the store. -/
theorem C5_decode_checks_revocation (s : Settings) (tok : SerializedToken)
    (tt : TokenType) (ve : Bool) (now : Int) (bl : List String) :
    (∀ p, decode_token s tok tt ve now [] = .ok p →
      ∃ j, p.jti = some j ∧
        (bl.contains j = false → decode_token s tok tt ve now bl = .ok p) ∧
        (bl.contains j = true →
          decode_token s tok tt ve now bl =
            .error ⟨401, "Token has been revoked"⟩)) ∧
    (∀ e, decode_token s tok tt ve now [] = .error e →
      decode_token s tok tt ve now bl = .error e) := by
  constructor
  · intro p h
    obtain ⟨-, ⟨j, hj⟩, -⟩ := decode_token_ok_claims s tok tt ve now [] p h
    exact ⟨j, hj, fun hf => decode_token_ok_fresh s tok tt ve now bl p j h hj hf,
      fun hr => decode_token_revoked s tok tt ve now bl p j h hj hr⟩
  · intro e h
    exact decode_token_error_bl s tok tt ve now bl e h

/-- Witness for C5's amended statement: the concrete revoked token decodes
to the revocation error. -/
theorem C5_decode_checks_revocation_witness :
    decode_token ⟨"sA", "sR", 15, 30⟩
        (create_token ⟨"sA", "sR", 15, 30⟩ "u1" .ACCESS none 0 "j1")
        .ACCESS true 0 ["j1"] = .error ⟨401, "Token has been revoked"⟩ := by
  obtain ⟨hok, -⟩ := C5_decode_checks_revocation ⟨"sA", "sR", 15, 30⟩
    (create_token ⟨"sA", "sR", 15, 30⟩ "u1" .ACCESS none 0 "j1")
    .ACCESS true 0 ["j1"]
  obtain ⟨j, hj, -, hrv⟩ :=
    hok ⟨some "u1", some "access", some 900, some 0, some "j1"⟩ (by decide)
  obtain rfl : j = "j1" := by simpa using hj.symm
  exact hrv (by decide)

/-- Counterexample for C6: an expired token whose `jti` is revoked has a
valid signature, type, and claims (it decodes structurally against the
empty store), yet decoding it with `verify_exp` disabled does not succeed —
the revocation check inside `decode_token` still rejects it. -/
theorem C6_expired_decode_counterexample :
    decode_token ⟨"sA", "sR", 15, 30⟩
        (create_token ⟨"sA", "sR", 15, 30⟩ "u1" .ACCESS (some (-10)) 100 "j1")
        .ACCESS true 100 ["j1"] = .error ⟨401, "Token has expired"⟩ ∧
    decode_token ⟨"sA", "sR", 15, 30⟩
        (create_token ⟨"sA", "sR", 15, 30⟩ "u1" .ACCESS (some (-10)) 100 "j1")
        .ACCESS false 100 [] =
      .ok ⟨some "u1", some "access", some 90, some 100, some "j1"⟩ ∧
    decode_token ⟨"sA", "sR", 15, 30⟩
        (create_token ⟨"sA", "sR", 15, 30⟩ "u1" .ACCESS (some (-10)) 100 "j1")
        .ACCESS false 100 ["j1"] = .error ⟨401, "Token has been revoked"⟩ := by
  refine ⟨by decide, by decide, by decide⟩

/-- C6 as amended: a token whose `exp` is in the past fails with the 401
expiry error (distinct from the invalid-signature error) when `verify_exp`
is enabled; with `verify_exp` disabled the same token returns its claim set
provided signature, type, and required claims are valid AND its `jti` is
not revoked — when the `jti` is revoked it fails with the revocation error
even with expiry verification disabled. -/
theorem C6_expiry_check_amended (s : Settings) (p : Payload) (sec : String)
    (tt : TokenType) (now e : Int) (bl : List String) (sub j : String)
    (hsec : sec = (if tt = TokenType.ACCESS then s.JWT_SECRET_KEY
      else s.JWT_REFRESH_SECRET_KEY))
    (hexp : p.exp = some e) (hlt : e < now) (htype : p.type = some tt.value)
    (hsub : p.sub = some sub) (hj : p.jti = some j) :
    decode_token s (.signed p sec) tt true now bl =
        .error ⟨401, "Token has expired"⟩ ∧
    (⟨401, "Token has expired"⟩ : HTTPError) ≠
        ⟨401, "Could not validate credentials"⟩ ∧
    (bl.contains j = false →
      decode_token s (.signed p sec) tt false now bl = .ok p) ∧
    (bl.contains j = true →
      decode_token s (.signed p sec) tt false now bl =
        .error ⟨401, "Token has been revoked"⟩) := by
  subst hsec
  refine ⟨?_, by decide, fun hf => ?_, fun hr => ?_⟩
  · unfold decode_token jose.decode
    simp [hexp, hlt]
  · have hmem : j ∉ bl := by simpa using hf
    unfold decode_token jose.decode
    simp [hexp, htype, hsub, hj, is_blacklisted, hmem]
  · have hmem : j ∈ bl := by simpa using hr
    unfold decode_token jose.decode
    simp [hexp, htype, hsub, hj, is_blacklisted, hmem]

/-- Witness for C6's amended statement at a concrete expired token, in both
the fresh and the revoked store. -/
theorem C6_expiry_check_amended_witness :
    decode_token ⟨"sA", "sR", 15, 30⟩
        (.signed ⟨some "u1", some "access", some 90, some 100, some "j1"⟩ "sA")
        .ACCESS true 100 [] = .error ⟨401, "Token has expired"⟩ ∧
    decode_token ⟨"sA", "sR", 15, 30⟩
        (.signed ⟨some "u1", some "access", some 90, some 100, some "j1"⟩ "sA")
        .ACCESS false 100 [] =
      .ok ⟨some "u1", some "access", some 90, some 100, some "j1"⟩ :=
  ⟨(C6_expiry_check_amended ⟨"sA", "sR", 15, 30⟩
      ⟨some "u1", some "access", some 90, some 100, some "j1"⟩ "sA"
      .ACCESS 100 90 [] "u1" "j1" rfl rfl (by decide) rfl rfl rfl).1,
    (C6_expiry_check_amended ⟨"sA", "sR", 15, 30⟩
      ⟨some "u1", some "access", some 90, some 100, some "j1"⟩ "sA"
      .ACCESS 100 90 [] "u1" "j1" rfl rfl (by decide) rfl rfl rfl).2.2.1
      (by decide)⟩

/-- Counterexample for C8: a truthy negative `expires_delta` is applied
unchecked, producing a token with `exp` (700) strictly below `iat` (1000) —
`expires_at > issued_at` fails for this issued token. -/
theorem C8_negative_override_counterexample :
    create_token ⟨"sA", "sR", 15, 30⟩ "u1" .ACCESS (some (-300)) 1000 "j1" =
      .signed ⟨some "u1", some "access", some 700, some 1000, some "j1"⟩
        "sA" ∧
    ¬ (700 : Int) > 1000 := by
  exact ⟨rfl, by decide⟩

/-- C8 as amended: every token issued with no override, a zero override
(falsy, so the configured lifetime applies), or a positive override
satisfies `exp > iat`, the configured lifetimes being positive; a negative
override yields `exp < iat`, so the invariant holds only for those
overrides. -/
theorem C8_exp_gt_iat_amended (s : Settings) (uid : String) (tt : TokenType)
    (d : Option Int) (now : Int) (jti : String)
    (hA : 0 < s.ACCESS_TOKEN_EXPIRE_MINUTES)
    (hR : 0 < s.REFRESH_TOKEN_EXPIRE_DAYS)
    (hd : d = none ∨ d = some 0 ∨ ∃ k, d = some k ∧ 0 < k) :
    ∀ p sec, create_token s uid tt d now jti = .signed p sec →
      ∃ e i, p.exp = some e ∧ p.iat = some i ∧ i < e := by
  intro p sec h
  unfold create_token jose.encode at h
  rcases hd with rfl | rfl | ⟨k, rfl, hk⟩ <;> cases tt <;>
    simp [timedelta_truthy] at h
  · obtain ⟨rfl, -⟩ := h
    exact ⟨now + 60 * s.ACCESS_TOKEN_EXPIRE_MINUTES, now, rfl, rfl, by omega⟩
  · obtain ⟨rfl, -⟩ := h
    exact ⟨now + 86400 * s.REFRESH_TOKEN_EXPIRE_DAYS, now, rfl, rfl, by omega⟩
  · obtain ⟨rfl, -⟩ := h
    exact ⟨now + 60 * s.ACCESS_TOKEN_EXPIRE_MINUTES, now, rfl, rfl, by omega⟩
  · obtain ⟨rfl, -⟩ := h
    exact ⟨now + 86400 * s.REFRESH_TOKEN_EXPIRE_DAYS, now, rfl, rfl, by omega⟩
  · have hk0 : k ≠ 0 := by omega
    simp [hk0] at h
    obtain ⟨rfl, -⟩ := h
    exact ⟨now + k, now, rfl, rfl, by omega⟩
  · have hk0 : k ≠ 0 := by omega
    simp [hk0] at h
    obtain ⟨rfl, -⟩ := h
    exact ⟨now + k, now, rfl, rfl, by omega⟩

/-- Witness for C8's amended statement at a concrete default-lifetime
token. -/
theorem C8_exp_gt_iat_amended_witness :
    ∃ e i,
      (Payload.mk (some "u1") (some "access") (some 900) (some 0)
        (some "j1")).exp = some e ∧
      (Payload.mk (some "u1") (some "access") (some 900) (some 0)
        (some "j1")).iat = some i ∧ i < e :=
  C8_exp_gt_iat_amended ⟨"sA", "sR", 15, 30⟩ "u1" .ACCESS none 0 "j1"
    (by decide) (by decide) (Or.inl rfl)
    ⟨some "u1", some "access", some 900, some 0, some "j1"⟩ "sA" rfl

/-- C7: an attempt with an unknown username and an attempt with a known
username but a failing password produce the identical single 401
"Invalid username or password" on both the JSON and the form login
endpoint — externally indistinguishable. -/
theorem C7_login_indistinguishable (bv : String → String → Bool)
    (s : Settings) (db : List User) (name1 pw1 name2 pw2 : String)
    (now : Int) (jA jR : String) (u : User)
    (h1 : db.find? (fun v => v.username == name1) = none)
    (h2 : db.find? (fun v => v.username == name2) = some u)
    (h3 : bv pw2 u.hashed_password = false) :
    login_json bv s db name1 pw1 now jA jR =
        .error ⟨401, "Invalid username or password"⟩ ∧
    login_json bv s db name2 pw2 now jA jR =
        .error ⟨401, "Invalid username or password"⟩ ∧
    login_form bv s db name1 pw1 now jA jR =
        .error ⟨401, "Invalid username or password"⟩ ∧
    login_form bv s db name2 pw2 now jA jR =
        .error ⟨401, "Invalid username or password"⟩ := by
  unfold login_json login_form User.authenticate
  rw [h1, h2]
  simp [h3]

/-- Witness for C7: a concrete one-user directory, an unknown username and
a wrong password. -/
theorem C7_login_indistinguishable_witness :
    login_json (fun _ _ => false) ⟨"sA", "sR", 15, 30⟩
        [⟨"u1", "alice", "$2b$12$h", true⟩] "bob" "x" 0 "jA" "jR" =
        .error ⟨401, "Invalid username or password"⟩ ∧
    login_json (fun _ _ => false) ⟨"sA", "sR", 15, 30⟩
        [⟨"u1", "alice", "$2b$12$h", true⟩] "alice" "wrong" 0 "jA" "jR" =
        .error ⟨401, "Invalid username or password"⟩ ∧
    login_form (fun _ _ => false) ⟨"sA", "sR", 15, 30⟩
        [⟨"u1", "alice", "$2b$12$h", true⟩] "bob" "x" 0 "jA" "jR" =
        .error ⟨401, "Invalid username or password"⟩ ∧
    login_form (fun _ _ => false) ⟨"sA", "sR", 15, 30⟩
        [⟨"u1", "alice", "$2b$12$h", true⟩] "alice" "wrong" 0 "jA" "jR" =
        .error ⟨401, "Invalid username or password"⟩ :=
  C7_login_indistinguishable (fun _ _ => false) ⟨"sA", "sR", 15, 30⟩
    [⟨"u1", "alice", "$2b$12$h", true⟩] "bob" "x" "alice" "wrong" 0 "jA" "jR"
    ⟨"u1", "alice", "$2b$12$h", true⟩ (by decide) (by decide) rfl

theorem modulus_loop_zero (rest : List ℚ) (hz : (0 : ℚ) ∈ rest) :
    ∀ r, modulus_loop r rest = .error .zeroDivisionError := by
  induction rest with
  | nil => cases hz
  | cons v vs ih =>
    intro r
    by_cases hv : v = 0
    · simp [modulus_loop, hv]
    · have hz2 : (0 : ℚ) ∈ vs := by
        rcases List.mem_cons.mp hz with h0 | h0
        · exact absurd h0.symm hv
        · exact h0
      simp [modulus_loop, hv, ih hz2]

theorem division_loop_zero (rest : List ℚ) (hz : (0 : ℚ) ∈ rest) :
    ∀ r, division_loop r rest = .error (.valueError "Cannot divide by zero.") := by
  induction rest with
  | nil => cases hz
  | cons v vs ih =>
    intro r
    by_cases hv : v = 0
    · simp [division_loop, hv]
    · have hz2 : (0 : ℚ) ∈ vs := by
        rcases List.mem_cons.mp hz with h0 | h0
        · exact absurd h0.symm hv
        · exact h0
      simp [division_loop, hv, ih hz2]

/-- C9: on any input list of length at least two with a zero after the
first element, `Modulus.get_result` fails with the unhandled
`ZeroDivisionError` while `Division.get_result` raises the guarded
`ValueError("Cannot divide by zero.")`; the type "modulus" is supported by
the `Calculation.create` factory, so this branch is reachable. -/
theorem C9_modulus_unguarded_zero_divisor (inputs : List ℚ)
    (h2 : 2 ≤ inputs.length) (hz : (0 : ℚ) ∈ inputs.tail) :
    Modulus.get_result inputs = .error .zeroDivisionError ∧
    Division.get_result inputs = .error (.valueError "Cannot divide by zero.") ∧
    calculation_create "modulus" = some .modulus := by
  cases inputs with
  | nil => simp at h2
  | cons x rest =>
    have hlen : ¬ (x :: rest).length < 2 := by omega
    have hz2 : (0 : ℚ) ∈ rest := by simpa using hz
    refine ⟨?_, ?_, by decide⟩
    · unfold Modulus.get_result
      rw [if_neg hlen]
      exact modulus_loop_zero rest hz2 x
    · unfold Division.get_result
      rw [if_neg hlen]
      exact division_loop_zero rest hz2 x

/-- Witness for C9 on the concrete input list `[10, 0]`. -/
theorem C9_modulus_unguarded_zero_divisor_witness :
    Modulus.get_result [(10 : ℚ), 0] = .error .zeroDivisionError ∧
    Division.get_result [(10 : ℚ), 0] =
      .error (.valueError "Cannot divide by zero.") ∧
    calculation_create "modulus" = some .modulus :=
  C9_modulus_unguarded_zero_divisor [(10 : ℚ), 0] (by decide) (by decide)

theorem mem_replace_first (p : Calc → Bool) (c2 x : Calc) (l : List Calc)
    (hx : x ∈ l) (hpx : p x = false) : x ∈ replace_first p c2 l := by
  induction l with
  | nil => cases hx
  | cons c cs ih =>
    unfold replace_first
    by_cases hc : p c
    · rw [if_pos hc]
      rcases List.mem_cons.mp hx with h0 | h0
      · rw [h0] at hpx; rw [hpx] at hc; cases hc
      · exact List.mem_cons_of_mem _ h0
    · rw [if_neg hc]
      rcases List.mem_cons.mp hx with h0 | h0
      · exact h0 ▸ List.mem_cons_self _ _
      · exact List.mem_cons_of_mem _ (ih h0)

theorem mem_erase_first (p : Calc → Bool) (x : Calc) (l : List Calc)
    (hx : x ∈ l) (hpx : p x = false) : x ∈ erase_first p l := by
  induction l with
  | nil => cases hx
  | cons c cs ih =>
    unfold erase_first
    by_cases hc : p c
    · rw [if_pos hc]
      rcases List.mem_cons.mp hx with h0 | h0
      · rw [h0] at hpx; rw [hpx] at hc; cases hc
      · exact h0
    · rw [if_neg hc]
      rcases List.mem_cons.mp hx with h0 | h0
      · exact h0 ▸ List.mem_cons_self _ _
      · exact List.mem_cons_of_mem _ (ih h0)

theorem owned_by_false_of_other_user (cid uid : String) (c : Calc)
    (h : c.user_id ≠ uid) : owned_by cid uid c = false := by
  simp [owned_by, h]

theorem find_owned_none (cid uid : String) (db : List Calc)
    (hno : ∀ c ∈ db, c.id = cid → c.user_id ≠ uid) :
    db.find? (owned_by cid uid) = none := by
  rw [List.find?_eq_none]
  intro c hc
  simp only [owned_by, Bool.and_eq_true, beq_iff_eq, not_and]
  intro hid
  simpa using hno c hc hid

/-- C10: the read, update and delete endpoints only ever return or modify
calculations owned by the authenticated caller; rows of other users are
untouched, and an id that does not exist for this caller — whether absent
altogether or owned by someone else — yields the same uniform 404 with the
table left unchanged. -/
theorem C10_per_user_isolation (cid uid : String) (ui : Option (List ℚ))
    (db : List Calc) (now : Int) :
    (∀ c, get_calculation (some cid) uid db = .ok c →
      c.user_id = uid ∧ c ∈ db) ∧
    (∀ c db2, update_calculation (some cid) ui uid db now = (.ok c, db2) →
      c.user_id = uid ∧ ∀ c2 ∈ db, c2.user_id ≠ uid → c2 ∈ db2) ∧
    (∀ db2, delete_calculation (some cid) uid db = (.ok (), db2) →
      ∀ c2 ∈ db, c2.user_id ≠ uid → c2 ∈ db2) ∧
    ((∀ c ∈ db, c.id = cid → c.user_id ≠ uid) →
      get_calculation (some cid) uid db =
        .error ⟨404, "Calculation not found."⟩ ∧
      update_calculation (some cid) ui uid db now =
        (.error (.http ⟨404, "Calculation not found."⟩), db) ∧
      delete_calculation (some cid) uid db =
        (.error (.http ⟨404, "Calculation not found."⟩), db)) := by
  refine ⟨?_, ?_, ?_, ?_⟩
  · intro c hc
    unfold get_calculation at hc
    dsimp only at hc
    cases hfind : db.find? (owned_by cid uid) with
    | none => rw [hfind] at hc; simp at hc
    | some c0 =>
      rw [hfind] at hc
      have hc0 : c0 = c := by simpa using hc
      subst hc0
      have hp := List.find?_some hfind
      simp only [owned_by, Bool.and_eq_true, beq_iff_eq] at hp
      exact ⟨hp.2, List.mem_of_find?_eq_some hfind⟩
  · intro c db2 h
    unfold update_calculation at h
    dsimp only at h
    cases hfind : db.find? (owned_by cid uid) with
    | none => rw [hfind] at h; simp at h
    | some c0 =>
      rw [hfind] at h
      dsimp only at h
      have hp := List.find?_some hfind
      simp only [owned_by, Bool.and_eq_true, beq_iff_eq] at hp
      cases ui with
      | none =>
        dsimp only at h
        simp only [Prod.mk.injEq] at h
        obtain ⟨h1, h2⟩ := h
        have hcc : { c0 with updated_at := now } = c := by simpa using h1
        constructor
        · rw [← hcc]; exact hp.2
        · intro c2 hc2 hne
          rw [← h2]
          exact mem_replace_first _ _ _ _ hc2
            (owned_by_false_of_other_user cid uid c2 hne)
      | some new_inputs =>
        dsimp only at h
        cases hres : Calculation.get_result { c0 with inputs := new_inputs } with
        | error e => rw [hres] at h; simp at h
        | ok r =>
          rw [hres] at h
          simp only [Prod.mk.injEq] at h
          obtain ⟨h1, h2⟩ := h
          injection h1 with hcc
          constructor
          · rw [← hcc]; exact hp.2
          · intro c2 hc2 hne
            rw [← h2]
            exact mem_replace_first _ _ _ _ hc2
              (owned_by_false_of_other_user cid uid c2 hne)
  · intro db2 h
    unfold delete_calculation at h
    dsimp only at h
    cases hfind : db.find? (owned_by cid uid) with
    | none => rw [hfind] at h; simp at h
    | some c0 =>
      rw [hfind] at h
      dsimp only at h
      simp only [Prod.mk.injEq] at h
      obtain ⟨-, h2⟩ := h
      intro c2 hc2 hne
      rw [← h2]
      exact mem_erase_first _ _ _ hc2
        (owned_by_false_of_other_user cid uid c2 hne)
  · intro hno
    have hfind := find_owned_none cid uid db hno
    refine ⟨?_, ?_, ?_⟩
    · unfold get_calculation
      dsimp only
      rw [hfind]
    · unfold update_calculation
      dsimp only
      rw [hfind]
    · unfold delete_calculation
      dsimp only
      rw [hfind]

/-- Witness for C10: a calculation owned by another user produces the
uniform 404 on all three endpoints with the table unchanged. -/
theorem C10_per_user_isolation_witness :
    get_calculation (some "c1") "u1"
        [⟨"c1", "u2", "addition", [(1 : ℚ), 2], none, 0⟩] =
      .error ⟨404, "Calculation not found."⟩ ∧
    update_calculation (some "c1") none "u1"
        [⟨"c1", "u2", "addition", [(1 : ℚ), 2], none, 0⟩] 5 =
      (.error (.http ⟨404, "Calculation not found."⟩),
        [⟨"c1", "u2", "addition", [(1 : ℚ), 2], none, 0⟩]) ∧
    delete_calculation (some "c1") "u1"
        [⟨"c1", "u2", "addition", [(1 : ℚ), 2], none, 0⟩] =
      (.error (.http ⟨404, "Calculation not found."⟩),
        [⟨"c1", "u2", "addition", [(1 : ℚ), 2], none, 0⟩]) :=
  (C10_per_user_isolation "c1" "u1" none
    [⟨"c1", "u2", "addition", [(1 : ℚ), 2], none, 0⟩] 5).2.2.2 (by decide)
